import Mathlib

/-!
Verification of the GeminiX adapter (src/GeminiX.ts): a shallow embedding of
its data model and operations, followed by theorems settling the spec claims.

The vendor SDK (`@google/generative-ai`) is treated as an opaque collaborator:
its responses are supplied through a `Vendor` record of total functions, and
effects observable to the caller (callback invocations, request part lists,
state updates) are returned explicitly.  TypeScript enum values are strings,
so the two enum-mapping functions are embedded as functions on `String`
(their `switch` statements compare string values and have a `default` arm).
JavaScript truthiness matters in several places (`if (x)` is false for the
empty string) and is embedded as explicit emptiness tests, each marked by a
comment at the corresponding line.
-/

namespace GeminiX

/-- Vendor enum `HarmCategory` from `@google/generative-ai`. -/
inductive HarmCategory where
  | HARM_CATEGORY_UNSPECIFIED
  | HARM_CATEGORY_HARASSMENT
  | HARM_CATEGORY_HATE_SPEECH
  | HARM_CATEGORY_SEXUALLY_EXPLICIT
  | HARM_CATEGORY_DANGEROUS_CONTENT
deriving DecidableEq

/-- Vendor enum `HarmBlockThreshold` from `@google/generative-ai`. -/
inductive HarmBlockThreshold where
  | HARM_BLOCK_THRESHOLD_UNSPECIFIED
  | BLOCK_LOW_AND_ABOVE
  | BLOCK_MEDIUM_AND_ABOVE
  | BLOCK_ONLY_HIGH
  | BLOCK_NONE
deriving DecidableEq

/-- The enum `SafetySettingLevel` (src/GeminiX.ts lines 60-66); its values
are the strings given by `SafetySettingLevel.value`. -/
inductive SafetySettingLevel where
  | NONE
  | ONLY_HIGH
  | MEDIUM_AND_ABOVE
  | LOW_AND_ABOVE
  | UNSPECIFIED
deriving DecidableEq

/-- The string value of each `SafetySettingLevel` member (TS enums are
string-valued). -/
def SafetySettingLevel.value : SafetySettingLevel → String
  | .NONE => "NONE"
  | .ONLY_HIGH => "ONLY_HIGH"
  | .MEDIUM_AND_ABOVE => "MEDIUM_AND_ABOVE"
  | .LOW_AND_ABOVE => "LOW_AND_ABOVE"
  | .UNSPECIFIED => "UNSPECIFIED"

/-- The enum `SafetySettingHarmCategory` (src/GeminiX.ts lines 71-77). -/
inductive SafetySettingHarmCategory where
  | HARASSMENT
  | HATE_SPEECH
  | SEXUALLY_EXPLICIT
  | DANGEROUS_CONTENT
  | UNSPECIFIED
deriving DecidableEq

/-- The string value of each `SafetySettingHarmCategory` member. -/
def SafetySettingHarmCategory.value : SafetySettingHarmCategory → String
  | .HARASSMENT => "HARASSMENT"
  | .HATE_SPEECH => "HATE_SPEECH"
  | .SEXUALLY_EXPLICIT => "SEXUALLY_EXPLICIT"
  | .DANGEROUS_CONTENT => "DANGEROUS_CONTENT"
  | .UNSPECIFIED => "UNSPECIFIED"

/-- `GenerativeContentBlob`: an image as mime type plus base64 data. -/
structure GenerativeContentBlob where
  mimeType : String
  data : String
deriving DecidableEq

/-- A vendor message `Part`.  In the SDK this is a union of `TextPart` and
`InlineDataPart`; as in JavaScript object access (`part.text`,
`part.inlineData`), both fields are optional here. -/
structure Part where
  text : Option String := none
  inlineData : Option GenerativeContentBlob := none
deriving DecidableEq

/-- A vendor `Content`: a role-tagged turn of parts. -/
structure Content where
  role : String
  parts : List Part
deriving DecidableEq

/-- `ChatHistoryItem` (src/GeminiX.ts lines 82-95). -/
structure ChatHistoryItem where
  isUser : Bool
  text : Option String := none
  images : Option (List GenerativeContentBlob) := none
deriving DecidableEq

/-- `ModelChatHistoryPart` (src/GeminiX.ts lines 100-109). -/
structure ModelChatHistoryPart where
  type : String
  content : String
deriving DecidableEq

/-- `ModelChatHistoryItem` (src/GeminiX.ts lines 114-123). -/
structure ModelChatHistoryItem where
  isUser : Bool
  parts : List ModelChatHistoryPart
deriving DecidableEq

/-- `SendMessageOptions` (src/GeminiX.ts lines 128-134).  The
`onResponseChunk` callback is embedded by its presence; the texts it is
invoked with are reported in `SendMessageOutcome.callbackCalls`. -/
structure SendMessageOptions where
  images : Option (List GenerativeContentBlob) := none
  onResponseChunk : Bool := false
deriving DecidableEq

/-- `CountTokensOptions` (src/GeminiX.ts lines 139-141). -/
structure CountTokensOptions where
  images : Option (List GenerativeContentBlob) := none
deriving DecidableEq

/-- `CountChatTokensOptions` (src/GeminiX.ts lines 146-149). -/
structure CountChatTokensOptions where
  inputText : Option String := none
  images : Option (List GenerativeContentBlob) := none
deriving DecidableEq

/-- Generation parameters passed through to the vendor model handle. -/
structure GenerationConfig where
  temperature : Option Float := none
  topK : Option Float := none
  topP : Option Float := none
  maxOutputTokens : Option Float := none
  stopSequences : Option (List String) := none

/-- A vendor safety setting pair, as pushed by `initModel`. -/
structure SafetySetting where
  category : HarmCategory
  threshold : HarmBlockThreshold
deriving DecidableEq

/-- `ModelParams` (src/GeminiX.ts lines 11-44).  `safetySettings` is a TS
object whose keys are harm-category strings and values are level strings;
`for..in` iteration order is insertion order, so it is embedded as an
association list. -/
structure ModelParams where
  modelName : String
  apiKey : String
  temperature : Option Float := none
  topK : Option Float := none
  topP : Option Float := none
  maxOutputTokens : Option Float := none
  stopSequences : Option (List String) := none
  safetySettings : Option (List (String × String)) := none

/-- The model handle built by `initModel` (vendor `GenerativeModel`). -/
structure ModelHandle where
  modelName : String
  safetySettings : List SafetySetting
  generationConfig : GenerationConfig

/-- The errors this layer itself originates: `throw new Error("Model not
initialized")` and `throw new Error("Chat not initialized")`.  Every other
failure is a pass-through of the vendor SDK and lies outside this type. -/
inductive GeminiXError where
  | notInitialized
  | chatNotInitialized
deriving DecidableEq

/-- The message string of each error thrown by the adapter. -/
def GeminiXError.message : GeminiXError → String
  | .notInitialized => "Model not initialized"
  | .chatNotInitialized => "Chat not initialized"

/-- The vendor SDK as an oracle: what each awaited vendor call returns, as a
function of the request this layer submits.  The chat variants also receive
the conversation transcript held by the `ChatSession`. -/
structure Vendor where
  streamChunks : List Part → List String
  responseText : List Part → String
  chatStreamChunks : List Content → List Part → List String
  chatResponseText : List Content → List Part → String
  countTotalTokens : List Part → Nat
  countTotalTokensOnContents : List Content → Nat

/-- The adapter's process-wide state (src/GeminiX.ts lines 152-154): the
client handle (holding the api key), the model handle, and the conversation
handle.  A `ChatSession` is embedded as the transcript it stores. -/
structure GeminiXState where
  generativeAI : Option String := none
  model : Option ModelHandle := none
  chat : Option (List Content) := none

/-- The initial state: all three static fields `undefined`. -/
def initialState : GeminiXState := {}

/-- `mapHarmCategory` (src/GeminiX.ts lines 371-386): a `switch` on the
string value of the category, with a `default` arm. -/
def mapHarmCategory (harmCategory : String) : HarmCategory :=
  if harmCategory = "HARASSMENT" then .HARM_CATEGORY_HARASSMENT
  else if harmCategory = "HATE_SPEECH" then .HARM_CATEGORY_HATE_SPEECH
  else if harmCategory = "SEXUALLY_EXPLICIT" then .HARM_CATEGORY_SEXUALLY_EXPLICIT
  else if harmCategory = "DANGEROUS_CONTENT" then .HARM_CATEGORY_DANGEROUS_CONTENT
  else if harmCategory = "UNSPECIFIED" then .HARM_CATEGORY_UNSPECIFIED
  else .HARM_CATEGORY_UNSPECIFIED

/-- `mapSafetySettingLevel` (src/GeminiX.ts lines 388-403).  Note the source
maps `LOW_AND_ABOVE` to `BLOCK_MEDIUM_AND_ABOVE` (line 397). -/
def mapSafetySettingLevel (safetySettingLevel : String) : HarmBlockThreshold :=
  if safetySettingLevel = "NONE" then .BLOCK_NONE
  else if safetySettingLevel = "ONLY_HIGH" then .BLOCK_ONLY_HIGH
  else if safetySettingLevel = "MEDIUM_AND_ABOVE" then .BLOCK_MEDIUM_AND_ABOVE
  else if safetySettingLevel = "LOW_AND_ABOVE" then .BLOCK_MEDIUM_AND_ABOVE
  else if safetySettingLevel = "UNSPECIFIED" then .HARM_BLOCK_THRESHOLD_UNSPECIFIED
  else .HARM_BLOCK_THRESHOLD_UNSPECIFIED

/-- `initModel` (src/GeminiX.ts lines 160-187): builds the safety-settings
array in iteration order, then replaces the client and model handles.  The
conversation handle is left untouched. -/
def initModel (st : GeminiXState) (params : ModelParams) : GeminiXState :=
  let safetySettings : List SafetySetting :=
    match params.safetySettings with
    | none => []
    | some m =>
      m.foldl (fun acc kv =>
        acc ++ [{ category := mapHarmCategory kv.1,
                  threshold := mapSafetySettingLevel kv.2 }]) []
  { st with
    generativeAI := some params.apiKey,
    model := some
      { modelName := params.modelName,
        safetySettings := safetySettings,
        generationConfig :=
          { temperature := params.temperature,
            topK := params.topK,
            topP := params.topP,
            maxOutputTokens := params.maxOutputTokens,
            stopSequences := params.stopSequences } } }

/-- The `imageParts` array built by `sendMessage` / `sendChatMessage`
(src/GeminiX.ts lines 195-204 and 279-288): when `options` is supplied,
`options.images || []` is traversed and one inline-data part is pushed per
image. -/
def sendMessageImageParts (options : Option SendMessageOptions) : List Part :=
  match options with
  | none => []
  | some o =>
    (o.images.getD []).foldl (fun acc image => acc ++ [{ inlineData := some image }]) []

/-- The request array `[inputText, ...imageParts]` submitted by
`sendMessage` / `sendChatMessage`; the leading string is received by the
vendor as a text part. -/
def sendMessageRequestParts (inputText : String) (options : Option SendMessageOptions) :
    List Part :=
  { text := some inputText } :: sendMessageImageParts options

/-- The `imageParts` array built by `countTokens`
(src/GeminiX.ts lines 228-234). -/
def countTokensImageParts (options : Option CountTokensOptions) : List Part :=
  match options with
  | none => []
  | some o =>
    (o.images.getD []).foldl (fun acc image => acc ++ [{ inlineData := some image }]) []

/-- The request array `[inputText, ...imageParts]` submitted by
`countTokens` (src/GeminiX.ts line 235). -/
def countTokensRequestParts (inputText : String) (options : Option CountTokensOptions) :
    List Part :=
  { text := some inputText } :: countTokensImageParts options

/-- The streaming loop of `sendMessage` / `sendChatMessage`
(src/GeminiX.ts lines 210-214 and 294-298): for each chunk, the
`onResponseChunk` callback is invoked with the chunk's text and the text is
appended to the accumulator.  Returns the trace of callback arguments and
the final accumulated `responseText`. -/
def streamChunksLoop : List String → String → List String × String
  | [], responseText => ([], responseText)
  | chunkText :: rest, responseText =>
    let r := streamChunksLoop rest (responseText ++ chunkText)
    (chunkText :: r.1, r.2)

/-- The observable outcome of `sendMessage` / `sendChatMessage`:
the arguments `onResponseChunk` was invoked with (in order), and the string
the promise resolves to. -/
structure SendMessageOutcome where
  callbackCalls : List String
  responseText : String
deriving DecidableEq

/-- `sendMessage` (src/GeminiX.ts lines 189-221). -/
def sendMessage (v : Vendor) (st : GeminiXState) (inputText : String)
    (options : Option SendMessageOptions) : Except GeminiXError SendMessageOutcome :=
  match st.model with
  | none => .error .notInitialized
  | some _ =>
    let streamResponse :=
      match options with
      | some o => o.onResponseChunk
      | none => false
    let parts := sendMessageRequestParts inputText options
    if streamResponse then
      let r := streamChunksLoop (v.streamChunks parts) ""
      .ok { callbackCalls := r.1, responseText := r.2 }
    else
      .ok { callbackCalls := [], responseText := v.responseText parts }

/-- `countTokens` (src/GeminiX.ts lines 223-237). -/
def countTokens (v : Vendor) (st : GeminiXState) (inputText : String)
    (options : Option CountTokensOptions) : Except GeminiXError Nat :=
  match st.model with
  | none => .error .notInitialized
  | some _ => .ok (v.countTotalTokens (countTokensRequestParts inputText options))

/-- The parts of one seed turn built by `initChat`
(src/GeminiX.ts lines 247-257): `if (chatHistoryItem.text)` pushes a text
part — false for the empty string by JS truthiness — then one inline-data
part is pushed per image. -/
def chatHistoryItemParts (item : ChatHistoryItem) : List Part :=
  let parts : List Part :=
    match item.text with
    | some t => if t = "" then [] else [{ text := some t }]
    | none => []
  match item.images with
  | some images => images.foldl (fun acc image => acc ++ [{ inlineData := some image }]) parts
  | none => parts

/-- The `modelChatHistory` array built by `initChat`
(src/GeminiX.ts lines 244-264): one turn per input item, role `"user"` when
`isUser` else `"model"`, in input order. -/
def initChatHistory (chatHistory : Option (List ChatHistoryItem)) : List Content :=
  match chatHistory with
  | none => []
  | some items =>
    items.foldl (fun acc item =>
      acc ++ [{ role := if item.isUser then "user" else "model",
                parts := chatHistoryItemParts item }]) []

/-- `initChat` (src/GeminiX.ts lines 239-268): requires the model handle,
then replaces the conversation handle with one seeded from the translated
history. -/
def initChat (st : GeminiXState) (chatHistory : Option (List ChatHistoryItem)) :
    Except GeminiXError GeminiXState :=
  match st.model with
  | none => .error .notInitialized
  | some _ => .ok { st with chat := some (initChatHistory chatHistory) }

/-- `sendChatMessage` (src/GeminiX.ts lines 270-305).  The transcript growth
(message appended as a `"user"` turn, response as a `"model"` turn) is the
vendor `ChatSession`'s own side effect (spec section 4.5) and is reflected in
the returned state's conversation handle. -/
def sendChatMessage (v : Vendor) (st : GeminiXState) (inputText : String)
    (options : Option SendMessageOptions) :
    Except GeminiXError (SendMessageOutcome × GeminiXState) :=
  match st.model with
  | none => .error .notInitialized
  | some _ =>
    match st.chat with
    | none => .error .chatNotInitialized
    | some history =>
      let streamResponse :=
        match options with
        | some o => o.onResponseChunk
        | none => false
      let parts := sendMessageRequestParts inputText options
      let outcome : SendMessageOutcome :=
        if streamResponse then
          let r := streamChunksLoop (v.chatStreamChunks history parts) ""
          { callbackCalls := r.1, responseText := r.2 }
        else
          { callbackCalls := [], responseText := v.chatResponseText history parts }
      .ok (outcome,
        { st with chat := some (history ++
            [{ role := "user", parts := parts },
             { role := "model", parts := [{ text := some outcome.responseText }] }]) })

/-- The `parts` array built by `countChatTokens`
(src/GeminiX.ts lines 316-326): `if (options?.inputText)` pushes a text part
— false for the empty string by JS truthiness — then one inline-data part is
pushed per image of `options?.images`. -/
def countChatTokensParts (options : Option CountChatTokensOptions) : List Part :=
  let parts : List Part :=
    match options.bind (fun o => o.inputText) with
    | some t => if t = "" then [] else [{ text := some t }]
    | none => []
  match options.bind (fun o => o.images) with
  | some images => images.foldl (fun acc image => acc ++ [{ inlineData := some image }]) parts
  | none => parts

/-- The `contents` array submitted by `countChatTokens`
(src/GeminiX.ts lines 328-335): the stored transcript, followed by one
synthetic `"user"` turn exactly when `parts.length > 0`. -/
def countChatTokensContents (history : List Content)
    (options : Option CountChatTokensOptions) : List Content :=
  let parts := countChatTokensParts options
  let userHistory : List Content :=
    if parts.length > 0 then [{ role := "user", parts := parts }] else []
  history ++ userHistory

/-- `countChatTokens` (src/GeminiX.ts lines 307-338). -/
def countChatTokens (v : Vendor) (st : GeminiXState)
    (options : Option CountChatTokensOptions) : Except GeminiXError Nat :=
  match st.model with
  | none => .error .notInitialized
  | some _ =>
    match st.chat with
    | none => .error .chatNotInitialized
    | some history =>
      .ok (v.countTotalTokensOnContents (countChatTokensContents history options))

/-- The translation of one stored part by `getChatHistory`
(src/GeminiX.ts lines 356-359): `type` is
`part.inlineData ? (part.inlineData.mimeType || "image") : "text"` and
`content` is `part.text || part.inlineData?.data || ""`; `x || y` takes `y`
when the string `x` is empty (JS truthiness). -/
def mapStoredPart (part : Part) : ModelChatHistoryPart :=
  { type :=
      match part.inlineData with
      | some inl => if inl.mimeType = "" then "image" else inl.mimeType
      | none => "text",
    content :=
      match part.text with
      | some t =>
        if t = "" then
          match part.inlineData with
          | some inl => inl.data
          | none => ""
        else t
      | none =>
        match part.inlineData with
        | some inl => inl.data
        | none => "" }

/-- `getChatHistory` (src/GeminiX.ts lines 340-366). -/
def getChatHistory (st : GeminiXState) : Except GeminiXError (List ModelChatHistoryItem) :=
  match st.model with
  | none => .error .notInitialized
  | some _ =>
    match st.chat with
    | none => .error .chatNotInitialized
    | some history =>
      .ok (history.foldl (fun acc c =>
        acc ++ [{ isUser := c.role == "user",
                  parts := c.parts.foldl (fun ps part => ps ++ [mapStoredPart part]) [] }]) [])

/-- One public operation of the adapter, for reasoning about operation
sequences. -/
inductive Op where
  | opInitModel (params : ModelParams)
  | opSendMessage (inputText : String) (options : Option SendMessageOptions)
  | opCountTokens (inputText : String) (options : Option CountTokensOptions)
  | opInitChat (chatHistory : Option (List ChatHistoryItem))
  | opSendChatMessage (inputText : String) (options : Option SendMessageOptions)
  | opCountChatTokens (options : Option CountChatTokensOptions)
  | opGetChatHistory

/-- The state after one public operation: a thrown guard error leaves the
static fields unchanged. -/
def step (v : Vendor) (st : GeminiXState) : Op → GeminiXState
  | .opInitModel params => initModel st params
  | .opSendMessage _ _ => st
  | .opCountTokens _ _ => st
  | .opInitChat chatHistory =>
    match initChat st chatHistory with
    | .ok st2 => st2
    | .error _ => st
  | .opSendChatMessage inputText options =>
    match sendChatMessage v st inputText options with
    | .ok r => r.2
    | .error _ => st
  | .opCountChatTokens _ => st
  | .opGetChatHistory => st

/-!  Concrete fixtures shared by the witnesses. -/

/-- A concrete model handle, used by the witnesses. -/
def someModelHandle : ModelHandle :=
  { modelName := "gemini-pro", safetySettings := [], generationConfig := {} }

/-- A concrete vendor oracle returning fixed values, used by the
witnesses. -/
def sampleVendor : Vendor :=
  { streamChunks := fun _ => ["Hel", "lo"],
    responseText := fun _ => "Hello",
    chatStreamChunks := fun _ _ => ["Hel", "lo"],
    chatResponseText := fun _ _ => "Hello",
    countTotalTokens := fun parts => parts.length,
    countTotalTokensOnContents := fun contents => contents.length }

/-- A state with a model handle but no conversation handle. -/
def stModelOnly : GeminiXState := { model := some someModelHandle }

/-- A state with both a model handle and an (empty) conversation handle. -/
def stModelChat : GeminiXState := { model := some someModelHandle, chat := some [] }

/-- A concrete image blob used by the witnesses. -/
def pngBlob : GenerativeContentBlob := { mimeType := "image/png", data := "abc" }

/-- A concrete text part used by the witnesses. -/
def hiTextPart : Part := { text := some "hi", inlineData := none }

/-- A concrete inline-data part used by the witnesses. -/
def pngPart : Part := { text := none, inlineData := some pngBlob }

/-- A concrete two-item seed history used by the C8 witness. -/
def sampleSeedItems : List ChatHistoryItem :=
  [{ isUser := true, text := some "hi", images := none },
   { isUser := false, text := none, images := some [pngBlob] }]

/-- A concrete inline-data part with an empty mime type. -/
def emptyMimePart : Part :=
  { text := none, inlineData := some { mimeType := "", data := "imgdata" } }

/-- A reachable state whose transcript holds an inline-data part with an
empty mime type (seedable through `initChat`). -/
def c9state : GeminiXState :=
  { generativeAI := none,
    model := some someModelHandle,
    chat := some [{ role := "model", parts := [emptyMimePart] }] }

/-- A concrete stored transcript used by the C9 witness. -/
def sampleTranscript : List Content :=
  [{ role := "user", parts := [hiTextPart] },
   { role := "model", parts := [pngPart] }]

/-- A concrete state holding `sampleTranscript`. -/
def stWithTranscript : GeminiXState :=
  { generativeAI := none, model := some someModelHandle, chat := some sampleTranscript }

/-!  Helper lemmas shared by the claim theorems. -/

/-- A JS push loop `for (x of l) acc.push(f x)` equals appending the mapped
list. -/
theorem foldl_push_map {α β : Type} (f : α → β) (l : List α) (init : List β) :
    l.foldl (fun acc x => acc ++ [f x]) init = init ++ l.map f := by
  induction l generalizing init with
  | nil => simp
  | cons x xs ih => simp [List.foldl_cons, ih]

/-- The streaming loop invokes the callback once per chunk, in order, and
accumulates the chunk texts left to right. -/
theorem streamChunksLoop_spec (chunks : List String) (acc : String) :
    streamChunksLoop chunks acc = (chunks, List.foldl (· ++ ·) acc chunks) := by
  induction chunks generalizing acc with
  | nil => rfl
  | cons c cs ih => simp [streamChunksLoop, ih]

/-- Left-to-right accumulation of strings starting from `acc` is `acc`
followed by the join of the list. -/
theorem foldl_append_eq_join (chunks : List String) (acc : String) :
    List.foldl (· ++ ·) acc chunks = acc ++ String.join chunks := by
  induction chunks generalizing acc with
  | nil =>
    show acc = acc ++ ""
    exact (String.append_empty acc).symm
  | cons c cs ih =>
    show List.foldl (· ++ ·) (acc ++ c) cs = acc ++ String.join (c :: cs)
    rw [ih (acc ++ c)]
    have hj : String.join (c :: cs) = c ++ String.join cs := by
      show List.foldl (fun r s => r ++ s) ("" ++ c) cs = c ++ String.join cs
      have := ih ("" ++ c)
      simpa [String.empty_append] using this
    rw [hj, String.append_assoc]

/-!  Claim theorems. -/

/-- Claim C4: the harm-category and block-level enum-mapping functions are total,
pure functions: every `SafetySettingHarmCategory` value maps to exactly one
vendor `HarmCategory`, every `SafetySettingLevel` value maps to exactly one
vendor `HarmBlockThreshold`, and any unknown or `UNSPECIFIED` input maps to
the vendor's unspecified sentinel; no input fails. -/
theorem c4_enum_maps_total_pure :
    (∀ c : SafetySettingHarmCategory, mapHarmCategory c.value =
      match c with
      | .HARASSMENT => HarmCategory.HARM_CATEGORY_HARASSMENT
      | .HATE_SPEECH => HarmCategory.HARM_CATEGORY_HATE_SPEECH
      | .SEXUALLY_EXPLICIT => HarmCategory.HARM_CATEGORY_SEXUALLY_EXPLICIT
      | .DANGEROUS_CONTENT => HarmCategory.HARM_CATEGORY_DANGEROUS_CONTENT
      | .UNSPECIFIED => HarmCategory.HARM_CATEGORY_UNSPECIFIED) ∧
    (∀ s : String, (∀ c : SafetySettingHarmCategory, s ≠ c.value) →
      mapHarmCategory s = HarmCategory.HARM_CATEGORY_UNSPECIFIED) ∧
    (∀ l : SafetySettingLevel, mapSafetySettingLevel l.value =
      match l with
      | .NONE => HarmBlockThreshold.BLOCK_NONE
      | .ONLY_HIGH => HarmBlockThreshold.BLOCK_ONLY_HIGH
      | .MEDIUM_AND_ABOVE => HarmBlockThreshold.BLOCK_MEDIUM_AND_ABOVE
      | .LOW_AND_ABOVE => HarmBlockThreshold.BLOCK_MEDIUM_AND_ABOVE
      | .UNSPECIFIED => HarmBlockThreshold.HARM_BLOCK_THRESHOLD_UNSPECIFIED) ∧
    (∀ s : String, (∀ l : SafetySettingLevel, s ≠ l.value) →
      mapSafetySettingLevel s = HarmBlockThreshold.HARM_BLOCK_THRESHOLD_UNSPECIFIED) := by
  refine ⟨fun c => by cases c <;> rfl, ?_, fun l => by cases l <;> rfl, ?_⟩
  · intro s h
    have h1 : s ≠ "HARASSMENT" := h .HARASSMENT
    have h2 : s ≠ "HATE_SPEECH" := h .HATE_SPEECH
    have h3 : s ≠ "SEXUALLY_EXPLICIT" := h .SEXUALLY_EXPLICIT
    have h4 : s ≠ "DANGEROUS_CONTENT" := h .DANGEROUS_CONTENT
    have h5 : s ≠ "UNSPECIFIED" := h .UNSPECIFIED
    simp [mapHarmCategory, h1, h2, h3, h4, h5]
  · intro s h
    have h1 : s ≠ "NONE" := h .NONE
    have h2 : s ≠ "ONLY_HIGH" := h .ONLY_HIGH
    have h3 : s ≠ "MEDIUM_AND_ABOVE" := h .MEDIUM_AND_ABOVE
    have h4 : s ≠ "LOW_AND_ABOVE" := h .LOW_AND_ABOVE
    have h5 : s ≠ "UNSPECIFIED" := h .UNSPECIFIED
    simp [mapSafetySettingLevel, h1, h2, h3, h4, h5]

/-- Witness for C4 at concrete inputs. -/
theorem c4_enum_maps_total_pure_witness :
    mapHarmCategory "HARASSMENT" = HarmCategory.HARM_CATEGORY_HARASSMENT ∧
    mapHarmCategory "SOMETHING_ELSE" = HarmCategory.HARM_CATEGORY_UNSPECIFIED ∧
    mapSafetySettingLevel "SOMETHING_ELSE" =
      HarmBlockThreshold.HARM_BLOCK_THRESHOLD_UNSPECIFIED :=
  ⟨c4_enum_maps_total_pure.1 SafetySettingHarmCategory.HARASSMENT,
   c4_enum_maps_total_pure.2.1 "SOMETHING_ELSE" (by intro c; cases c <;> decide),
   c4_enum_maps_total_pure.2.2.2 "SOMETHING_ELSE" (by intro l; cases l <;> decide)⟩

/-- Claim C5: the block-level mapping is not injective on the named levels:
`LOW_AND_ABOVE` maps to `BLOCK_MEDIUM_AND_ABOVE`, the same vendor threshold
as `MEDIUM_AND_ABOVE`, and no input at all produces the vendor's
`BLOCK_LOW_AND_ABOVE`. -/
theorem c5_block_level_not_injective :
    mapSafetySettingLevel SafetySettingLevel.LOW_AND_ABOVE.value =
      HarmBlockThreshold.BLOCK_MEDIUM_AND_ABOVE ∧
    mapSafetySettingLevel SafetySettingLevel.MEDIUM_AND_ABOVE.value =
      HarmBlockThreshold.BLOCK_MEDIUM_AND_ABOVE ∧
    ∀ s : String, mapSafetySettingLevel s ≠ HarmBlockThreshold.BLOCK_LOW_AND_ABOVE := by
  refine ⟨by decide, by decide, ?_⟩
  intro s h
  unfold mapSafetySettingLevel at h
  split_ifs at h

/-- Witness for C5 at a concrete input. -/
theorem c5_block_level_not_injective_witness :
    mapSafetySettingLevel "NONE" ≠ HarmBlockThreshold.BLOCK_LOW_AND_ABOVE :=
  c5_block_level_not_injective.2.2 "NONE"

/-- Claim C1: lifecycle guard errors.  For every input, each of the six guarded
operations fails with the model-not-initialized error when no model handle
exists; the three chat operations fail with the chat-not-initialized error
when a model handle exists but no conversation handle does; and with the
required handles present every operation succeeds, so these two guard
errors are the only errors this layer itself originates (vendor failures
live outside the `Except`). -/
theorem c1_lifecycle_guards (v : Vendor) (inputText : String)
    (smOpts : Option SendMessageOptions) (ctOpts : Option CountTokensOptions)
    (cctOpts : Option CountChatTokensOptions) (hist : Option (List ChatHistoryItem)) :
    (∀ st : GeminiXState, st.model = none →
      sendMessage v st inputText smOpts = .error .notInitialized ∧
      countTokens v st inputText ctOpts = .error .notInitialized ∧
      initChat st hist = .error .notInitialized ∧
      sendChatMessage v st inputText smOpts = .error .notInitialized ∧
      countChatTokens v st cctOpts = .error .notInitialized ∧
      getChatHistory st = .error .notInitialized) ∧
    (∀ st : GeminiXState, ∀ m : ModelHandle, st.model = some m → st.chat = none →
      sendChatMessage v st inputText smOpts = .error .chatNotInitialized ∧
      countChatTokens v st cctOpts = .error .chatNotInitialized ∧
      getChatHistory st = .error .chatNotInitialized) ∧
    (∀ st : GeminiXState, ∀ m : ModelHandle, st.model = some m →
      (∃ r, sendMessage v st inputText smOpts = .ok r) ∧
      (∃ r, countTokens v st inputText ctOpts = .ok r) ∧
      (∃ r, initChat st hist = .ok r)) ∧
    (∀ st : GeminiXState, ∀ m : ModelHandle, ∀ transcript : List Content,
      st.model = some m → st.chat = some transcript →
      (∃ r, sendChatMessage v st inputText smOpts = .ok r) ∧
      (∃ r, countChatTokens v st cctOpts = .ok r) ∧
      (∃ r, getChatHistory st = .ok r)) := by
  refine ⟨?_, ?_, ?_, ?_⟩
  · intro st hm
    refine ⟨?_, ?_, ?_, ?_, ?_, ?_⟩ <;>
      simp [sendMessage, countTokens, initChat, sendChatMessage, countChatTokens,
        getChatHistory, hm]
  · intro st m hm hc
    refine ⟨?_, ?_, ?_⟩ <;>
      simp [sendChatMessage, countChatTokens, getChatHistory, hm, hc]
  · intro st m hm
    refine ⟨?_, ?_, ?_⟩
    · simp only [sendMessage, hm]
      split <;> exact ⟨_, rfl⟩
    · simp only [countTokens, hm]
      exact ⟨_, rfl⟩
    · simp only [initChat, hm]
      exact ⟨_, rfl⟩
  · intro st m transcript hm hc
    refine ⟨?_, ?_, ?_⟩ <;>
      simp [sendChatMessage, countChatTokens, getChatHistory, hm, hc]

/-- Witness for C1: the guards observed at concrete states and inputs. -/
theorem c1_lifecycle_guards_witness :
    sendMessage sampleVendor initialState "hi" none = .error .notInitialized ∧
    sendChatMessage sampleVendor stModelOnly "hi" none = .error .chatNotInitialized ∧
    (∃ r, sendMessage sampleVendor stModelOnly "hi" none = .ok r) ∧
    (∃ r, sendChatMessage sampleVendor stModelChat "hi" none = .ok r) :=
  ⟨((c1_lifecycle_guards sampleVendor "hi" none none none none).1 initialState rfl).1,
   ((c1_lifecycle_guards sampleVendor "hi" none none none none).2.1 stModelOnly
      someModelHandle rfl rfl).1,
   ((c1_lifecycle_guards sampleVendor "hi" none none none none).2.2.1 stModelOnly
      someModelHandle rfl).1,
   ((c1_lifecycle_guards sampleVendor "hi" none none none none).2.2.2 stModelChat
      someModelHandle [] rfl rfl).1⟩

/-- Claim C2: when the `onResponseChunk` callback is supplied, `sendMessage` (and
`sendChatMessage`) invokes it exactly once per received chunk, in arrival
order, with that chunk's partial text, and resolves to the concatenation of
all chunk texts in arrival order — no chunk dropped or reordered. -/
theorem c2_streaming_chunks (v : Vendor) (st : GeminiXState) (inputText : String)
    (options : SendMessageOptions) (m : ModelHandle)
    (hm : st.model = some m) (hcb : options.onResponseChunk = true) :
    (sendMessage v st inputText (some options) =
      .ok { callbackCalls := v.streamChunks (sendMessageRequestParts inputText (some options)),
            responseText :=
              String.join (v.streamChunks (sendMessageRequestParts inputText (some options))) }) ∧
    (∀ transcript : List Content, st.chat = some transcript →
      sendChatMessage v st inputText (some options) =
        .ok ({ callbackCalls :=
                 v.chatStreamChunks transcript (sendMessageRequestParts inputText (some options)),
               responseText :=
                 String.join (v.chatStreamChunks transcript
                   (sendMessageRequestParts inputText (some options))) },
             { st with chat := some (transcript ++
                 [{ role := "user", parts := sendMessageRequestParts inputText (some options) },
                  { role := "model",
                    parts := [{ text := some (String.join (v.chatStreamChunks transcript
                      (sendMessageRequestParts inputText (some options)))) }] }]) })) := by
  constructor
  · simp [sendMessage, hm, hcb, streamChunksLoop_spec, foldl_append_eq_join,
      String.empty_append]
  · intro transcript hc
    simp [sendChatMessage, hm, hc, hcb, streamChunksLoop_spec, foldl_append_eq_join,
      String.empty_append]

/-- Witness for C2: two chunks arrive; the callback sees both in order and
the promise resolves to their concatenation. -/
theorem c2_streaming_chunks_witness :
    sendMessage sampleVendor stModelOnly "hi"
      (some { images := none, onResponseChunk := true }) =
      .ok { callbackCalls := ["Hel", "lo"], responseText := "Hello" } :=
  (c2_streaming_chunks sampleVendor stModelOnly "hi"
    { images := none, onResponseChunk := true } someModelHandle rfl rfl).1

/-- Claim C3: with the same input text and images, the streaming form of
`sendMessage` and the non-streaming form resolve to identical final text,
assuming the vendor's stream chunks concatenate to the single-shot response
text. -/
theorem c3_stream_nonstream_equal (v : Vendor) (st : GeminiXState) (inputText : String)
    (images : Option (List GenerativeContentBlob)) (m : ModelHandle)
    (hm : st.model = some m)
    (hvendor : String.join (v.streamChunks (sendMessageRequestParts inputText
        (some { images := images, onResponseChunk := true }))) =
      v.responseText (sendMessageRequestParts inputText
        (some { images := images, onResponseChunk := false }))) :
    ∃ streamed single,
      sendMessage v st inputText (some { images := images, onResponseChunk := true }) =
        .ok streamed ∧
      sendMessage v st inputText (some { images := images, onResponseChunk := false }) =
        .ok single ∧
      streamed.responseText = single.responseText := by
  refine ⟨{ callbackCalls := v.streamChunks (sendMessageRequestParts inputText
              (some { images := images, onResponseChunk := true })),
            responseText := String.join (v.streamChunks (sendMessageRequestParts inputText
              (some { images := images, onResponseChunk := true }))) },
          { callbackCalls := [],
            responseText := v.responseText (sendMessageRequestParts inputText
              (some { images := images, onResponseChunk := false })) },
          ?_, ?_, hvendor⟩
  · simp [sendMessage, hm, streamChunksLoop_spec, foldl_append_eq_join,
      String.empty_append]
  · simp [sendMessage, hm]

/-- Witness for C3 with a concrete vendor whose chunks concatenate to its
single-shot response. -/
theorem c3_stream_nonstream_equal_witness :
    ∃ streamed single,
      sendMessage sampleVendor stModelOnly "hi"
        (some { images := none, onResponseChunk := true }) = .ok streamed ∧
      sendMessage sampleVendor stModelOnly "hi"
        (some { images := none, onResponseChunk := false }) = .ok single ∧
      streamed.responseText = single.responseText :=
  c3_stream_nonstream_equal sampleVendor stModelOnly "hi" none someModelHandle rfl rfl

/-- Normal form of the `parts` array built by `countChatTokens`: the text
part (only when `inputText` is present and non-empty) followed by one
inline-data part per image, in order. -/
theorem countChatTokensParts_eq (options : Option CountChatTokensOptions) :
    countChatTokensParts options =
      (match options.bind (fun o => o.inputText) with
        | some t => if t = "" then [] else [{ text := some t }]
        | none => ([] : List Part)) ++
      ((options.bind (fun o => o.images)).getD []).map
        (fun image => ({ inlineData := some image } : Part)) := by
  cases options with
  | none => rfl
  | some o =>
    cases himg : o.images with
    | none => simp [countChatTokensParts, himg]
    | some imgs => simp [countChatTokensParts, himg, foldl_push_map]

/-- Claim C6: `countChatTokens` submits the stored transcript followed by exactly
one synthetic `"user"` turn if and only if at least one of `inputText` or
`images` yields a part; in particular with empty options it submits exactly
the stored transcript. -/
theorem c6_countChatTokens_synthetic_turn (v : Vendor) (st : GeminiXState)
    (m : ModelHandle) (history : List Content)
    (hm : st.model = some m) (hc : st.chat = some history)
    (options : Option CountChatTokensOptions) :
    (countChatTokens v st options =
      .ok (v.countTotalTokensOnContents (countChatTokensContents history options))) ∧
    (countChatTokensParts options = [] →
      countChatTokensContents history options = history) ∧
    (countChatTokensParts options ≠ [] →
      countChatTokensContents history options =
        history ++ [{ role := "user", parts := countChatTokensParts options }]) ∧
    (countChatTokensParts options = [] ↔
      (options.bind (fun o => o.inputText) = none ∨
        options.bind (fun o => o.inputText) = some "") ∧
      (options.bind (fun o => o.images)).getD [] = []) ∧
    (countChatTokens v st (some {}) = .ok (v.countTotalTokensOnContents history)) := by
  refine ⟨by simp [countChatTokens, hm, hc], ?_, ?_, ?_, ?_⟩
  · intro h
    simp [countChatTokensContents, h]
  · intro h
    simp only [countChatTokensContents]
    rw [if_pos (by exact List.length_pos.mpr h)]
  · rw [countChatTokensParts_eq, List.append_eq_nil, List.map_eq_nil_iff]
    apply and_congr_left
    intro _
    cases hin : options.bind (fun o => o.inputText) with
    | none => simp
    | some t =>
      by_cases ht : t = ""
      · simp [ht]
      · simp [ht]
  · simp [countChatTokens, hm, hc, countChatTokensContents, countChatTokensParts]

/-- Witness for C6: empty options count exactly the transcript; a non-empty
`inputText` yields exactly one synthetic turn. -/
theorem c6_countChatTokens_synthetic_turn_witness :
    countChatTokens sampleVendor stModelChat (some {}) = .ok 0 ∧
    countChatTokensContents [] (some { inputText := some "x", images := none }) =
      [{ role := "user", parts := [{ text := some "x", inlineData := none }] }] :=
  ⟨(c6_countChatTokens_synthetic_turn sampleVendor stModelChat someModelHandle [] rfl rfl
      (some {})).2.2.2.2,
   (c6_countChatTokens_synthetic_turn sampleVendor stModelChat someModelHandle [] rfl rfl
      (some { inputText := some "x", images := none })).2.2.1 (by decide)⟩

/-- Claim C7: the part sequence submitted by `sendMessage` and `countTokens` is
the text part first, followed by one inline-data part per supplied image in
input order; for images `[A, B, C]` the parts after the text part are
`A`, `B`, `C` in that order. -/
theorem c7_request_part_order (inputText : String) (smOpts : Option SendMessageOptions)
    (ctOpts : Option CountTokensOptions) (A B C : GenerativeContentBlob) :
    (sendMessageRequestParts inputText smOpts =
      { text := some inputText, inlineData := none } ::
        (match smOpts with
          | none => ([] : List GenerativeContentBlob)
          | some o => o.images.getD []).map
          (fun image => ({ inlineData := some image } : Part))) ∧
    (countTokensRequestParts inputText ctOpts =
      { text := some inputText, inlineData := none } ::
        (match ctOpts with
          | none => ([] : List GenerativeContentBlob)
          | some o => o.images.getD []).map
          (fun image => ({ inlineData := some image } : Part))) ∧
    (sendMessageRequestParts inputText
        (some { images := some [A, B, C], onResponseChunk := false }) =
      [{ text := some inputText, inlineData := none },
       { text := none, inlineData := some A },
       { text := none, inlineData := some B },
       { text := none, inlineData := some C }]) := by
  refine ⟨?_, ?_, ?_⟩
  · cases smOpts with
    | none => rfl
    | some o => simp [sendMessageRequestParts, sendMessageImageParts, foldl_push_map]
  · cases ctOpts with
    | none => rfl
    | some o => simp [countTokensRequestParts, countTokensImageParts, foldl_push_map]
  · rfl

/-- Normal form of the parts of one seed turn built by `initChat`. -/
theorem chatHistoryItemParts_eq (item : ChatHistoryItem) :
    chatHistoryItemParts item =
      (match item.text with
        | some t => if t = "" then [] else [{ text := some t }]
        | none => ([] : List Part)) ++
      (item.images.getD []).map (fun image => ({ inlineData := some image } : Part)) := by
  cases himg : item.images with
  | none => simp [chatHistoryItemParts, himg]
  | some imgs => simp [chatHistoryItemParts, himg, foldl_push_map]

/-- Counterexample to C8 as stated: for an item whose `text` is present but
empty, the code (`if (chatHistoryItem.text)`, false on the empty string)
pushes no text part, while the claim prescribes a text part whenever the
text is present. -/
theorem c8_empty_text_cex :
    initChatHistory (some [{ isUser := true, text := some "", images := none }]) ≠
      [{ role := "user", parts := [{ text := some "", inlineData := none }] }] := by
  decide

/-- Claim C8 (amended): `initChat` translates every `ChatHistoryItem` into a seed
turn with role `"user"` if `isUser` else `"model"`, whose parts are the text
part if the text is present and non-empty, followed by one inline-data part
per image in input order; the order of turns equals the order of input
items. -/
theorem c8_initChat_translation (st : GeminiXState) (m : ModelHandle)
    (hm : st.model = some m) (items : List ChatHistoryItem) :
    initChat st (some items) =
      .ok { st with chat := some (initChatHistory (some items)) } ∧
    initChatHistory (some items) = items.map (fun item =>
      ({ role := if item.isUser then "user" else "model",
         parts :=
           (match item.text with
             | some t => if t = "" then [] else [{ text := some t }]
             | none => ([] : List Part)) ++
           (item.images.getD []).map
             (fun image => ({ inlineData := some image } : Part)) } : Content)) := by
  constructor
  · simp [initChat, hm]
  · simp [initChatHistory, foldl_push_map, chatHistoryItemParts_eq]

/-- Witness for C8 at a concrete input: one user turn with text and one
model turn with an image, in order. -/
theorem c8_initChat_translation_witness :
    initChat stModelOnly (some sampleSeedItems) =
      .ok { stModelOnly with
            chat := some [{ role := "user", parts := [hiTextPart] },
                          { role := "model", parts := [pngPart] }] } :=
  (c8_initChat_translation stModelOnly someModelHandle rfl sampleSeedItems).1

/-- Counterexample to C9 as stated: for a stored inline-data part with an
empty mime type, the code (`part.inlineData.mimeType || "image"`) reports
type `"image"`, not the part's mime type. -/
theorem c9_empty_mime_type_cex :
    getChatHistory c9state ≠
      .ok [{ isUser := false, parts := [{ type := "", content := "imgdata" }] }] := by
  intro h
  exact absurd (Except.ok.inj h) (by decide)

/-- Claim C9 (amended): `getChatHistory` maps every stored turn to
`isUser = (role == "user")` with parts in stored order, where `type` is the
part's mime type if it is an inline-data part with a non-empty mime type,
`"image"` for an inline-data part with an empty mime type, and `"text"`
otherwise, and `content` is the part's text if present and non-empty, else
the inline-data payload if present, else the empty string. -/
theorem c9_getChatHistory_mapping (st : GeminiXState) (m : ModelHandle)
    (history : List Content) (hm : st.model = some m) (hc : st.chat = some history) :
    getChatHistory st = .ok (history.map (fun c =>
      ({ isUser := c.role == "user",
         parts := c.parts.map (fun p =>
           ({ type :=
                match p.inlineData with
                | some inl => if inl.mimeType = "" then "image" else inl.mimeType
                | none => "text",
              content :=
                match p.text with
                | some t =>
                  if t = "" then
                    match p.inlineData with
                    | some inl => inl.data
                    | none => ""
                  else t
                | none =>
                  match p.inlineData with
                  | some inl => inl.data
                  | none => "" } : ModelChatHistoryPart)) } : ModelChatHistoryItem))) := by
  simp [getChatHistory, hm, hc, foldl_push_map, mapStoredPart]

/-- Witness for C9 at a concrete state: a user text turn and a model
inline-data turn, mapped in stored order. -/
theorem c9_getChatHistory_mapping_witness :
    getChatHistory stWithTranscript =
      .ok [{ isUser := true, parts := [{ type := "text", content := "hi" }] },
           { isUser := false, parts := [{ type := "image/png", content := "abc" }] }] :=
  c9_getChatHistory_mapping stWithTranscript someModelHandle sampleTranscript rfl rfl

/-- Each public operation preserves the handle invariant: if the
conversation handle implies the model handle before the step, it does after
the step. -/
theorem step_preserves_inv (v : Vendor) (st : GeminiXState) (op : Op)
    (h : st.chat.isSome → st.model.isSome) :
    (step v st op).chat.isSome → (step v st op).model.isSome := by
  cases op with
  | opInitModel p => intro _; rfl
  | opSendMessage t o => exact h
  | opCountTokens t o => exact h
  | opInitChat hist =>
    cases hmo : st.model with
    | none =>
      simp only [step, initChat, hmo]
      intro hc
      rw [← hmo]
      exact h hc
    | some m =>
      simp only [step, initChat, hmo]
      intro _
      rfl
  | opSendChatMessage t o =>
    cases hmo : st.model with
    | none =>
      simp only [step, sendChatMessage, hmo]
      intro hc
      rw [← hmo]
      exact h hc
    | some m =>
      cases hch : st.chat with
      | none =>
        simp only [step, sendChatMessage, hmo, hch]
        intro _
        rfl
      | some tr =>
        simp only [step, sendChatMessage, hmo, hch]
        intro _
        rfl
  | opCountChatTokens o => exact h
  | opGetChatHistory => exact h

/-- No public operation clears the model handle. -/
theorem step_keeps_model (v : Vendor) (st : GeminiXState) (op : Op)
    (h : st.model.isSome) : (step v st op).model.isSome := by
  cases op with
  | opInitModel p => rfl
  | opSendMessage t o => exact h
  | opCountTokens t o => exact h
  | opInitChat hist =>
    cases hmo : st.model with
    | none =>
      simp only [step, initChat, hmo]
      rw [hmo] at h
      exact h
    | some m =>
      simp only [step, initChat, hmo]
      rfl
  | opSendChatMessage t o =>
    cases hmo : st.model with
    | none =>
      simp only [step, sendChatMessage, hmo]
      rw [hmo] at h
      exact h
    | some m =>
      cases hch : st.chat with
      | none =>
        simp only [step, sendChatMessage, hmo, hch]
        rfl
      | some tr =>
        simp only [step, sendChatMessage, hmo, hch]
        rfl
  | opCountChatTokens o => exact h
  | opGetChatHistory => exact h

/-- Claim C10: over every operation sequence from the uninitialized state,
whenever the conversation handle exists the model handle also exists;
no operation ever clears the model handle; and `initChat` without a model
handle leaves the state unchanged (it does not create the chat handle). -/
theorem c10_chat_implies_model (v : Vendor) :
    (∀ ops : List Op,
      (ops.foldl (step v) initialState).chat.isSome →
      (ops.foldl (step v) initialState).model.isSome) ∧
    (∀ (st : GeminiXState) (op : Op), st.model.isSome → (step v st op).model.isSome) ∧
    (∀ (st : GeminiXState) (hist : Option (List ChatHistoryItem)),
      st.model = none → step v st (Op.opInitChat hist) = st) := by
  refine ⟨?_, fun st op h => step_keeps_model v st op h, ?_⟩
  · have key : ∀ (ops : List Op) (st : GeminiXState),
        (st.chat.isSome → st.model.isSome) →
        ((ops.foldl (step v) st).chat.isSome → (ops.foldl (step v) st).model.isSome) := by
      intro ops
      induction ops with
      | nil => intro st h; exact h
      | cons op rest ih =>
        intro st h
        exact ih (step v st op) (step_preserves_inv v st op h)
    intro ops
    exact key ops initialState (by intro h; cases h)
  · intro st hist hm
    simp only [step, initChat, hm]

/-- Witness for C10: a concrete run `initModel; initChat` satisfies the
invariant, and concrete steps keep the model handle. -/
theorem c10_chat_implies_model_witness :
    (([Op.opInitModel { modelName := "gemini-pro", apiKey := "k" },
       Op.opInitChat none].foldl (step sampleVendor) initialState)).model.isSome ∧
    (step sampleVendor stModelOnly (Op.opSendMessage "hi" none)).model.isSome ∧
    step sampleVendor initialState (Op.opInitChat none) = initialState :=
  ⟨(c10_chat_implies_model sampleVendor).1
      [Op.opInitModel { modelName := "gemini-pro", apiKey := "k" },
       Op.opInitChat none] (by decide),
   (c10_chat_implies_model sampleVendor).2.1 stModelOnly (Op.opSendMessage "hi" none) rfl,
   (c10_chat_implies_model sampleVendor).2.2 initialState none rfl⟩

end GeminiX
